import Mathlib

/-!
Verification of the prompt version-control subsystem of the mirascope CLI
(`use` and `add` commands) against its specification.

The embedding models the filesystem state touched by the CLI: working prompt
files and revision snapshot files as a path-indexed map of text contents,
per-prompt version pointer files as structured records, and directory
listings. `use_command` is translated from
`src/mirascope/cli/commands/use.py`; the helpers it imports from
`mirascope/cli/utils.py` and the `add` command (only their tests and callers
are in the sources) are modelled from the specification, as marked on each
definition. Collaborators the specification declares external (template
renderer, formatter, metadata extraction) are abstract functions bundled in
an `Env` record.
-/

namespace Mirascope

/-- `MirascopeSettings` from `mirascope.cli.schemas`, as instantiated in
`src/tests/cli/commands/test_add.py`. -/
structure MirascopeSettings where
  mirascope_location : String
  auto_tag : Bool
  version_file_name : String
  prompts_location : String
  versions_location : String
deriving DecidableEq, Repr

/-- `VersionTextFile` from `mirascope.cli.schemas`: the per-prompt pointer
file with its two recognized keys. -/
structure VersionTextFile where
  current_revision : Option String
  latest_revision : Option String
deriving DecidableEq, Repr

/-- `MirascopeCommand` from `mirascope.enums`, as imported by
`src/mirascope/cli/commands/use.py`. -/
inductive MirascopeCommand where
  | ADD
  | USE
deriving DecidableEq, Repr

/-- Filesystem state seen by the CLI: text files (working prompts and
revision snapshots) by path, pointer files by path, and directory listings
(file names inside a versions directory). -/
structure FState where
  files : String → Option String
  pointers : String → Option VersionTextFile
  listing : String → List String

/-- `os.path.join` for the relative two-component paths the CLI builds. -/
def pathJoin (a b : String) : String := a ++ "/" ++ b

/-- Error taxonomy surfaced to the caller; `use_command` documents
`FileNotFoundError` as its only raise. -/
inductive CliError where
  | fileNotFound (msg : String)
deriving DecidableEq, Repr

/-- Observable filesystem events of one command run, in program order. -/
inductive Event where
  | readSnapshot (path : String)
  | writeWorking (path : String) (content : String)
  | formatRun (path : String)
  | writePointer (path : String)
deriving DecidableEq, Repr

/-- Outcome of one command invocation: final state, lines printed to stdout,
filesystem events in order, and the raised error if any (`error = none`
means the function returned normally). -/
structure RunOut where
  state : FState
  printed : List String
  events : List Event
  error : Option CliError

/-- External collaborators (spec section 6): the template renderer
`write_prompt_to_template`, the formatter invoked by `run_format_command`,
and the renderer's inverse used for metadata: extraction of the embedded
symbolic name and metadata stripping. -/
structure Env where
  write_prompt_to_template : String → MirascopeCommand → String
  format : String → String
  extract_alias : String → Option String
  strip_meta : String → String
  render_snapshot : String → Option String → Bool → String → String

/-- Keys passed to `update_version_text_file`; a key that is `none` is not
part of the update (mirrors the `keys_to_update` dict literal in
`use_command`). -/
structure KeysToUpdate where
  current_revision : Option String := none
  latest_revision : Option String := none
deriving DecidableEq, Repr

/-- Modelled from the spec: `update_version_text_file` lives in
`mirascope/cli/utils.py`, which is not under the sources; per spec sections 3
and 6 the pointer file is plain key-value text with recognized keys
`current_revision` and `latest_revision`, and an update rewrites exactly the
provided keys, leaving the other key unchanged (creating the file, with the
absent key null, when it does not exist). -/
def update_version_text_file (path : String) (keys : KeysToUpdate)
    (s : FState) : FState :=
  let old := (s.pointers path).getD ⟨none, none⟩
  let new : VersionTextFile :=
    { current_revision := match keys.current_revision with
        | some v => some v
        | none => old.current_revision
      latest_revision := match keys.latest_revision with
        | some v => some v
        | none => old.latest_revision }
  { s with pointers := fun p => if p = path then some new else s.pointers p }

/-- A string of the pointer's numbering width (4-digit zero-padded
revision numbers, spec section 6). -/
def isRevisionNumber (v : String) : Bool :=
  v.length = 4 && v.toList.all Char.isDigit

/-- Modelled from the spec: `find_prompt_path` lives in
`mirascope/cli/utils.py`, which is not under the sources. Per spec section
4.3 step 1 it scans `versions_location/<prompt_name>/` for a filename
matching the requested revision number (numeric strings of the pointer's
numbering width, matched against the `NNNN_` filename prefix), or, for an
symbolic name, the file whose embedded metadata matches it (extracted by
the renderer's inverse); returns the first match or nothing. -/
def find_prompt_path (env : Env) (s : FState) (dir v : String) :
    Option String :=
  let found := (s.listing dir).filter (fun name =>
    if isRevisionNumber v then (v ++ "_").toList.isPrefixOf name.toList
    else match s.files (pathJoin dir name) with
      | some c => decide (env.extract_alias c = some v)
      | none => false)
  found.head?.map (fun name => pathJoin dir name)

/-- Modelled from the spec: `check_status` lives in `mirascope/cli/utils.py`,
which is not under the sources. Per spec section 4.1 it reads the working
prompt (absence is a distinct caller-visible error), compares its
metadata-stripped content with that of the snapshot referenced by
`current_revision` in the pointer file, and returns the working-prompt path
when they differ or no current revision is recorded (missing pointer file is
treated as never committed), nothing when they match. -/
def check_status (env : Env) (settings : MirascopeSettings)
    (prompt_name : String) (s : FState) : Except CliError (Option String) :=
  let prompt_path := pathJoin settings.prompts_location (prompt_name ++ ".py")
  let dir := pathJoin settings.versions_location prompt_name
  let ptr_path := pathJoin dir settings.version_file_name
  match s.files prompt_path with
  | none => .error (.fileNotFound prompt_path)
  | some working =>
    match ((s.pointers ptr_path).getD ⟨none, none⟩).current_revision with
    | none => .ok (some prompt_path)
    | some rev =>
      match find_prompt_path env s dir rev with
      | none => .ok (some prompt_path)
      | some snap_path =>
        match s.files snap_path with
        | none => .ok (some prompt_path)
        | some snap =>
          if env.strip_meta working = env.strip_meta snap then .ok none
          else .ok (some prompt_path)

/-- The version substitution at the top of `use_command`: the lookup target
is the second argument (the alias) when the version argument is empty, the
version argument otherwise. -/
def use_target (aliasArg version : String) : String :=
  if version = "" then aliasArg else version

/-- The state of `use_command` after the working-prompt write and the
formatter run, before the pointer-file update: the working file holds the
rendered snapshot content, then the formatter rewrites it (the
`if prompt_file_path:` guard in the source is true for every non-empty
path). -/
def use_write_stage (env : Env) (wpath rendered : String) (s : FState) :
    FState :=
  let s1 : FState :=
    { s with files := fun p => if p = wpath then some rendered else s.files p }
  if wpath ≠ "" then
    { s1 with files := fun p =>
        if p = wpath then (s1.files p).map env.format else s1.files p }
  else s1

/-- Translated from `use_command` in `src/mirascope/cli/commands/use.py`
(lines 60-133): substitute the alias argument for an empty version, check status and
abort with guidance on drift, locate the revision file, raise
`FileNotFoundError` when absent, write the re-rendered snapshot content to
the working prompt file, run the formatter, update `current_revision` in the
version file, and print the used path. -/
def use_command (env : Env) (settings : MirascopeSettings)
    (prompt_file_name aliasArg version : String) (s : FState) : RunOut :=
  let version := use_target aliasArg version
  match check_status env settings prompt_file_name s with
  | .error e => { state := s, printed := [], events := [], error := some e }
  | .ok (some _) =>
    { state := s
      printed := ["Changes detected, please add or remove changes first.",
                  "    mirascope add " ++ prompt_file_name]
      events := []
      error := none }
  | .ok none =>
    let version_directory_path := settings.versions_location
    let prompt_directory_path := settings.prompts_location
    let version_file_name := settings.version_file_name
    let prompt_versions_directory :=
      pathJoin version_directory_path prompt_file_name
    let revision_file_path :=
      find_prompt_path env s prompt_versions_directory version
    let version_file_path :=
      pathJoin prompt_versions_directory version_file_name
    match revision_file_path with
    | none =>
      { state := s, printed := [], events := []
        error := some (.fileNotFound ("Prompt version " ++ version ++
          " not found in " ++ prompt_versions_directory)) }
    | some rpath =>
      match s.files rpath with
      | none =>
        { state := s, printed := [], events := [.readSnapshot rpath]
          error := some (.fileNotFound rpath) }
      | some content =>
        let prompt_file_path :=
          pathJoin prompt_directory_path (prompt_file_name ++ ".py")
        let rendered :=
          env.write_prompt_to_template content MirascopeCommand.USE
        let s2 := use_write_stage env prompt_file_path rendered s
        let s3 := update_version_text_file version_file_path
          { current_revision := some version } s2
        { state := s3
          printed := ["Using " ++ rpath]
          events := [.readSnapshot rpath,
                     .writeWorking prompt_file_path rendered] ++
            (if prompt_file_path ≠ "" then [.formatRun prompt_file_path]
             else []) ++ [.writePointer version_file_path]
          error := none }

/-- Zero-padded 4-digit rendering of a revision number (spec section 6:
4-digit, zero-padded, base-10). -/
def pad4 (n : Nat) : String :=
  let t := toString n
  String.mk (List.replicate (4 - t.length) '0') ++ t

/-- Modelled from the spec: the next revision computation of the Add
operation (section 4.2 step 1): `latest_revision + 1`, or `0001` when no
revision exists. -/
def next_revision (latest : Option String) : String :=
  match latest with
  | none => "0001"
  | some l => pad4 ((l.toNat?.getD 0) + 1)

/-- Modelled from the spec: `add_command` lives in
`mirascope/cli/commands/add.py`, which is not under the sources; only its
tests (`src/tests/cli/commands/test_add.py`) are. Per spec section 4.2 and
the tests: run the status check first (a missing working prompt surfaces as
the status check's Not-Found error, matching `test_add_unknown_file` where
`FileNotFoundError` escapes, and `test_add_no_changes` where a mocked
no-drift status short-circuits before any file access); report
`No changes detected.` and do nothing on no drift (message fixed by
`test_add_no_changes`); otherwise snapshot the working prompt as the next
zero-padded revision with injected metadata, set both pointer keys to the
new revision, and re-render the working file from the new snapshot. -/
def add_command (env : Env) (settings : MirascopeSettings)
    (prompt_file_name : String) (s : FState) : RunOut :=
  match check_status env settings prompt_file_name s with
  | .error e => { state := s, printed := [], events := [], error := some e }
  | .ok none =>
    { state := s, printed := ["No changes detected."], events := []
      error := none }
  | .ok (some _) =>
    let prompt_path :=
      pathJoin settings.prompts_location (prompt_file_name ++ ".py")
    match s.files prompt_path with
    | none =>
      { state := s, printed := [], events := []
        error := some (.fileNotFound prompt_path) }
    | some content =>
      let dir := pathJoin settings.versions_location prompt_file_name
      let ptr_path := pathJoin dir settings.version_file_name
      let ptr := (s.pointers ptr_path).getD ⟨none, none⟩
      let next := next_revision ptr.latest_revision
      let snap_name := next ++ "_" ++ prompt_file_name ++ ".py"
      let snap_path := pathJoin dir snap_name
      let snap_text :=
        env.render_snapshot content ptr.current_revision settings.auto_tag next
      let s1 : FState :=
        { s with
          files := fun p => if p = snap_path then some snap_text else s.files p
          listing := fun d =>
            if d = dir then s.listing d ++ [snap_name] else s.listing d }
      let s2 := update_version_text_file ptr_path
        { current_revision := some next, latest_revision := some next } s1
      let s3 := use_write_stage env prompt_path
        (env.write_prompt_to_template snap_text MirascopeCommand.ADD) s2
      { state := s3
        printed := [snap_path]
        events := [.writeWorking snap_path snap_text,
                   .writePointer ptr_path,
                   .writeWorking prompt_path
                     (env.write_prompt_to_template snap_text
                       MirascopeCommand.ADD),
                   .formatRun prompt_path]
        error := none }

/-- Trivial collaborator instantiation: identity renderer and formatter, no
embedded alias metadata. -/
def envA : Env :=
  { write_prompt_to_template := fun c _ => c
    format := fun c => c
    extract_alias := fun _ => none
    strip_meta := fun c => c
    render_snapshot := fun c _ _ _ => c }

/-- Collaborator instantiation whose renderer inverse reports the alias
`summer` for the snapshot content `body2`. -/
def envAlias : Env :=
  { write_prompt_to_template := fun c _ => c
    format := fun c => c
    extract_alias := fun c => if c = "body2" then some "summer" else none
    strip_meta := fun c => c
    render_snapshot := fun c _ _ _ => c }

/-- The settings record used by the test suite
(`src/tests/cli/commands/test_add.py`). -/
def settingsA : MirascopeSettings :=
  { mirascope_location := ".mirascope"
    auto_tag := false
    version_file_name := "version.txt"
    prompts_location := "prompts"
    versions_location := "versions" }

/-- A state with a working prompt `foo` that was never committed: no pointer
file, so the status check reports drift. -/
def stDrift : FState :=
  { files := fun p => if p = "prompts/foo.py" then some "body" else none
    pointers := fun _ => none
    listing := fun _ => [] }

/-- A state with working prompt `foo` matching its current revision `0001`,
and a second snapshot `0002` with content `body2`: the status check reports
no drift. -/
def stClean : FState :=
  { files := fun p =>
      if p = "prompts/foo.py" then some "body"
      else if p = "versions/foo/0001_foo.py" then some "body"
      else if p = "versions/foo/0002_foo.py" then some "body2"
      else none
    pointers := fun p =>
      if p = "versions/foo/version.txt" then some ⟨some "0001", some "0002"⟩
      else none
    listing := fun d =>
      if d = "versions/foo" then ["0001_foo.py", "0002_foo.py"] else [] }

/-- The empty filesystem: no working prompts, no snapshots, no pointers. -/
def stEmpty : FState :=
  { files := fun _ => none
    pointers := fun _ => none
    listing := fun _ => [] }

/-- Whether `sub` occurs as a contiguous run inside `l`. -/
def listContains (sub l : List Char) : Bool :=
  match l with
  | [] => sub.isEmpty
  | _ :: t => List.isPrefixOf sub l || listContains sub t

/-- Whether `sub` occurs as a contiguous substring of `s`. -/
def strContains (s sub : String) : Bool :=
  listContains sub.toList s.toList

theorem pathJoin_ne_empty (a b : String) : pathJoin a b ≠ "" := by
  intro h
  have h2 := congrArg String.length h
  rw [pathJoin] at h2
  rw [String.length_append, String.length_append] at h2
  have h3 : ("/" : String).length = 1 := rfl
  have h4 : ("" : String).length = 0 := rfl
  omega

theorem uws_pointers (env : Env) (wpath rendered : String) (s : FState) :
    (use_write_stage env wpath rendered s).pointers = s.pointers := by
  unfold use_write_stage
  split <;> rfl

theorem uvtf_files (path : String) (keys : KeysToUpdate) (s : FState) :
    (update_version_text_file path keys s).files = s.files := rfl

theorem uws_files_self (env : Env) (wpath rendered : String) (s : FState)
    (h : wpath ≠ "") :
    (use_write_stage env wpath rendered s).files wpath =
      some (env.format rendered) := by
  simp [use_write_stage, h]

/-- Claim C1 (counterexample): in a drifting state the status checker
returns the working-prompt path `prompts/foo.py`, `use_command` prints a
non-empty report, yet no printed line contains that path — the conflicting
working-prompt path is not reported. -/
theorem use_drift_path_not_printed_cex :
    check_status envA settingsA "foo" stDrift = .ok (some "prompts/foo.py") ∧
    (use_command envA settingsA "foo" "a" "" stDrift).printed ≠ [] ∧
    ((use_command envA settingsA "foo" "a" "" stDrift).printed.all
      (fun m => !(strContains m "prompts/foo.py"))) = true := by
  refine ⟨by rfl, by decide, by decide⟩

/-- Claim C1 (amended): whenever the status checker reports drift,
`use_command` aborts after printing the changes-detected guidance naming
the prompt and suggesting `mirascope add` (the conflicting working-prompt
path itself is not printed), and performs no mutation: no revision file is
read, the working prompt file is not written, the pointer file is not
updated, the state is unchanged. -/
theorem use_drift_aborts_without_mutation (env : Env)
    (st : MirascopeSettings) (n a v : String) (s : FState) (p : String)
    (h : check_status env st n s = .ok (some p)) :
    (use_command env st n a v s).state = s ∧
    (use_command env st n a v s).error = none ∧
    (use_command env st n a v s).events = [] ∧
    (use_command env st n a v s).printed =
      ["Changes detected, please add or remove changes first.",
       "    mirascope add " ++ n] := by
  simp [use_command, h]

/-- Claim C1 (witness): the drift-abort theorem applied to the concrete
never-committed state. -/
theorem use_drift_aborts_without_mutation_witness :
    (use_command envA settingsA "foo" "a" "" stDrift).state = stDrift ∧
    (use_command envA settingsA "foo" "a" "" stDrift).error = none ∧
    (use_command envA settingsA "foo" "a" "" stDrift).events = [] ∧
    (use_command envA settingsA "foo" "a" "" stDrift).printed =
      ["Changes detected, please add or remove changes first.",
       "    mirascope add " ++ "foo"] :=
  use_drift_aborts_without_mutation envA settingsA "foo" "a" "" stDrift
    "prompts/foo.py" (by rfl)

/-- Claim C2 (counterexample): using the alias `summer`, which resolves to
the snapshot file `0002_foo.py` (revision number `0002`), writes the alias
string itself — not the resolved revision number — into
`current_revision`. -/
theorem use_alias_pointer_cex :
    (use_command envAlias settingsA "foo" "summer" "" stClean).printed =
      ["Using " ++ pathJoin (pathJoin "versions" "foo") "0002_foo.py"] ∧
    (use_command envAlias settingsA "foo" "summer" "" stClean).state.pointers
        (pathJoin (pathJoin "versions" "foo") "version.txt") =
      some ⟨some "summer", some "0002"⟩ ∧
    ("summer" : String) ≠ "0002" := by
  refine ⟨by rfl, by rfl, by decide⟩

/-- Claim C2 (amended): after every successful Use, `current_revision`
equals the requested alias-or-version string exactly as passed (hence the
resolved revision number precisely when a numeric revision was requested),
`latest_revision` is unchanged, and the update touches no pointer file
other than this prompt's and no key other than `current_revision`. -/
theorem use_pointer_update_current_only (env : Env)
    (st : MirascopeSettings) (n a v : String) (s : FState)
    (rpath c q : String)
    (h1 : check_status env st n s = .ok none)
    (h2 : find_prompt_path env s (pathJoin st.versions_location n)
      (use_target a v) = some rpath)
    (h3 : s.files rpath = some c)
    (hq : q ≠ pathJoin (pathJoin st.versions_location n)
      st.version_file_name) :
    (use_command env st n a v s).state.pointers
        (pathJoin (pathJoin st.versions_location n) st.version_file_name) =
      some ⟨some (use_target a v),
        ((s.pointers (pathJoin (pathJoin st.versions_location n)
          st.version_file_name)).getD ⟨none, none⟩).latest_revision⟩ ∧
    (use_command env st n a v s).state.pointers q = s.pointers q := by
  simp [use_command, h1, h2, h3, update_version_text_file, uws_pointers, hq]

/-- Claim C2 (witness): the pointer-update theorem applied to a concrete
successful numeric Use of revision `0001`. -/
theorem use_pointer_update_current_only_witness :
    (use_command envA settingsA "foo" "0001" "" stClean).state.pointers
        (pathJoin (pathJoin settingsA.versions_location "foo")
          settingsA.version_file_name) =
      some ⟨some (use_target "0001" ""),
        ((stClean.pointers (pathJoin (pathJoin settingsA.versions_location
          "foo") settingsA.version_file_name)).getD
            ⟨none, none⟩).latest_revision⟩ ∧
    (use_command envA settingsA "foo" "0001" "" stClean).state.pointers
      "other" = stClean.pointers "other" :=
  use_pointer_update_current_only envA settingsA "foo" "0001" "" stClean
    "versions/foo/0001_foo.py" "body" "other" (by rfl) (by rfl) (by rfl)
    (by decide)

/-- Claim C3 (counterexample): with a non-empty version `0002` and an alias
argument `myalias` that matches no snapshot's embedded alias metadata,
`use_command` nonetheless succeeds and uses `0002_foo.py` — the alias
argument is ignored, not used to narrow the lookup. -/
theorem use_resolution_ignores_alias_cex :
    (use_command envAlias settingsA "foo" "myalias" "0002" stClean).error =
      none ∧
    (use_command envAlias settingsA "foo" "myalias" "0002" stClean).printed =
      ["Using " ++ pathJoin (pathJoin "versions" "foo") "0002_foo.py"] ∧
    envAlias.extract_alias "body" ≠ some "myalias" ∧
    envAlias.extract_alias "body2" ≠ some "myalias" := by
  refine ⟨by rfl, by rfl, by decide, by decide⟩

/-- Claim C3 (amended): when the version argument is empty,
alias-or-version is itself the lookup target; when a non-empty version is
given, the alias argument is ignored entirely and the version string alone
is the target, so the run does not depend on the alias argument at all. -/
theorem use_resolution_target_rule (env : Env) (st : MirascopeSettings)
    (n a a2 v : String) (s : FState) (hv : v ≠ "") :
    use_target a "" = a ∧
    use_command env st n a v s = use_command env st n a2 v s := by
  constructor
  · simp [use_target]
  · simp [use_command, use_target, hv]

/-- Claim C3 (witness): the resolution-rule theorem at concrete alias
arguments `a` and `b` with explicit version `0002`. -/
theorem use_resolution_target_rule_witness :
    use_target "a" "" = "a" ∧
    use_command envA settingsA "foo" "a" "0002" stClean =
      use_command envA settingsA "foo" "b" "0002" stClean :=
  use_resolution_target_rule envA settingsA "foo" "a" "b" "0002" stClean
    (by decide)

/-- Claim C4: with no drift and no snapshot file matching the requested
revision or alias, Use fails with the Not-Found error and performs no
state change: no file event occurs, nothing is printed, the state is
unchanged. -/
theorem use_not_found_no_mutation (env : Env) (st : MirascopeSettings)
    (n a v : String) (s : FState)
    (h1 : check_status env st n s = .ok none)
    (h2 : find_prompt_path env s (pathJoin st.versions_location n)
      (use_target a v) = none) :
    (use_command env st n a v s).error =
      some (.fileNotFound ("Prompt version " ++ use_target a v ++
        " not found in " ++ pathJoin st.versions_location n)) ∧
    (use_command env st n a v s).state = s ∧
    (use_command env st n a v s).events = [] ∧
    (use_command env st n a v s).printed = [] := by
  simp [use_command, h1, h2]

/-- Claim C4 (witness): the Not-Found theorem at the concrete request for
the absent revision `0003`. -/
theorem use_not_found_no_mutation_witness :
    (use_command envA settingsA "foo" "0003" "" stClean).error =
      some (.fileNotFound ("Prompt version " ++ use_target "0003" "" ++
        " not found in " ++ pathJoin settingsA.versions_location "foo")) ∧
    (use_command envA settingsA "foo" "0003" "" stClean).state = stClean ∧
    (use_command envA settingsA "foo" "0003" "" stClean).events = [] ∧
    (use_command envA settingsA "foo" "0003" "" stClean).printed = [] :=
  use_not_found_no_mutation envA settingsA "foo" "0003" "" stClean
    (by rfl) (by rfl)

/-- Claim C5 (counterexample): a Use invoked while drift exists returns
normally — its error component is `none` and the condition is only a
printed report — so DirtyWorkingTree is not raised to the caller. -/
theorem use_dirty_tree_not_raised_cex :
    (use_command envA settingsA "foo" "a" "" stDrift).error = none ∧
    (use_command envA settingsA "foo" "a" "" stDrift).printed =
      ["Changes detected, please add or remove changes first.",
       "    mirascope add foo"] := by
  refine ⟨by rfl, by rfl⟩

/-- Claim C5 (amended): Not-Found conditions (absent revision on Use,
absent working prompt on Add) are raised to the immediate caller, untried
again, with no state change; DirtyWorkingTree on Use and NoChanges on Add
are not raised — each is reported as a printed message with a normal
return and no mutation. -/
theorem error_propagation_policy (env : Env) (st : MirascopeSettings)
    (n a v : String) (s : FState) (p : String) (e : CliError) :
    (check_status env st n s = .ok (some p) →
      (use_command env st n a v s).error = none ∧
      (use_command env st n a v s).state = s ∧
      (use_command env st n a v s).printed ≠ []) ∧
    (check_status env st n s = .ok none →
      find_prompt_path env s (pathJoin st.versions_location n)
        (use_target a v) = none →
      (use_command env st n a v s).error =
        some (.fileNotFound ("Prompt version " ++ use_target a v ++
          " not found in " ++ pathJoin st.versions_location n)) ∧
      (use_command env st n a v s).state = s) ∧
    (check_status env st n s = .error e →
      (add_command env st n s).error = some e ∧
      (add_command env st n s).state = s) ∧
    (check_status env st n s = .ok none →
      (add_command env st n s).error = none ∧
      (add_command env st n s).printed = ["No changes detected."] ∧
      (add_command env st n s).state = s) := by
  refine ⟨fun h => ?_, fun h1 h2 => ?_, fun h => ?_, fun h => ?_⟩
  · simp [use_command, h]
  · simp [use_command, h1, h2]
  · simp [add_command, h]
  · simp [add_command, h]

/-- Claim C5 (witness): the propagation-policy theorem applied to the
concrete drifting state, first clause. -/
theorem error_propagation_policy_witness :
    (use_command envA settingsA "foo" "a" "" stDrift).error = none ∧
    (use_command envA settingsA "foo" "a" "" stDrift).state = stDrift ∧
    (use_command envA settingsA "foo" "a" "" stDrift).printed ≠ [] :=
  (error_propagation_policy envA settingsA "foo" "a" "" stDrift
    "prompts/foo.py" (.fileNotFound "x")).1 (by rfl)

/-- Claim C6: on every successful Use, the working prompt file is
overwritten with the target snapshot's content re-rendered through the
working-file template (the Use command of the renderer), and the final
working-file content is that rendering as rewritten by the formatter. -/
theorem use_overwrites_working_file (env : Env) (st : MirascopeSettings)
    (n a v : String) (s : FState) (rpath c : String)
    (h1 : check_status env st n s = .ok none)
    (h2 : find_prompt_path env s (pathJoin st.versions_location n)
      (use_target a v) = some rpath)
    (h3 : s.files rpath = some c) :
    Event.writeWorking (pathJoin st.prompts_location (n ++ ".py"))
        (env.write_prompt_to_template c MirascopeCommand.USE) ∈
      (use_command env st n a v s).events ∧
    (use_command env st n a v s).state.files
        (pathJoin st.prompts_location (n ++ ".py")) =
      some (env.format (env.write_prompt_to_template c
        MirascopeCommand.USE)) := by
  constructor
  · simp [use_command, h1, h2, h3, pathJoin_ne_empty]
  · simp [use_command, h1, h2, h3, uvtf_files,
      uws_files_self env _ _ s (pathJoin_ne_empty _ _)]

/-- Claim C6 (witness): the overwrite theorem applied to the concrete
scenario of spec section 8 scenario D — using revision `0001` while the
latest revision is `0002`. -/
theorem use_overwrites_working_file_witness :
    Event.writeWorking (pathJoin settingsA.prompts_location ("foo" ++ ".py"))
        (envA.write_prompt_to_template "body" MirascopeCommand.USE) ∈
      (use_command envA settingsA "foo" "0001" "" stClean).events ∧
    (use_command envA settingsA "foo" "0001" "" stClean).state.files
        (pathJoin settingsA.prompts_location ("foo" ++ ".py")) =
      some (envA.format (envA.write_prompt_to_template "body"
        MirascopeCommand.USE)) :=
  use_overwrites_working_file envA settingsA "foo" "0001" "" stClean
    "versions/foo/0001_foo.py" "body" (by rfl) (by rfl) (by rfl)

/-- Claim C7: whenever the status checker reports no drift, Add reports
`No changes detected.` as an informational message, performs no mutation
(no file event, state unchanged), and returns without error. -/
theorem add_no_changes_noop (env : Env) (st : MirascopeSettings)
    (n : String) (s : FState)
    (h : check_status env st n s = .ok none) :
    (add_command env st n s).error = none ∧
    (add_command env st n s).printed = ["No changes detected."] ∧
    (add_command env st n s).state = s ∧
    (add_command env st n s).events = [] := by
  simp [add_command, h]

/-- Claim C7 (witness): the no-changes theorem applied to the concrete
clean state. -/
theorem add_no_changes_noop_witness :
    (add_command envA settingsA "foo" stClean).error = none ∧
    (add_command envA settingsA "foo" stClean).printed =
      ["No changes detected."] ∧
    (add_command envA settingsA "foo" stClean).state = stClean ∧
    (add_command envA settingsA "foo" stClean).events = [] :=
  add_no_changes_noop envA settingsA "foo" stClean (by rfl)

/-- Claim C8: Add on a prompt whose working prompt file does not exist in
`prompts_location` fails with the Not-Found error and performs no writes:
no file event, nothing printed, state unchanged. -/
theorem add_missing_prompt_not_found (env : Env) (st : MirascopeSettings)
    (n : String) (s : FState)
    (h : s.files (pathJoin st.prompts_location (n ++ ".py")) = none) :
    (add_command env st n s).error =
      some (.fileNotFound (pathJoin st.prompts_location (n ++ ".py"))) ∧
    (add_command env st n s).state = s ∧
    (add_command env st n s).events = [] ∧
    (add_command env st n s).printed = [] := by
  have hc : check_status env st n s =
      .error (.fileNotFound (pathJoin st.prompts_location (n ++ ".py"))) := by
    simp [check_status, h]
  simp [add_command, hc]

/-- Claim C8 (witness): the missing-prompt theorem applied to the empty
filesystem. -/
theorem add_missing_prompt_not_found_witness :
    (add_command envA settingsA "foo" stEmpty).error =
      some (.fileNotFound (pathJoin settingsA.prompts_location
        ("foo" ++ ".py"))) ∧
    (add_command envA settingsA "foo" stEmpty).state = stEmpty ∧
    (add_command envA settingsA "foo" stEmpty).events = [] ∧
    (add_command envA settingsA "foo" stEmpty).printed = [] :=
  add_missing_prompt_not_found envA settingsA "foo" stEmpty (by rfl)

/-- Claim C9: every successful Use yields the used path: the command
returns without error and prints `Using <resolved revision file path>`. -/
theorem use_success_prints_used_path (env : Env) (st : MirascopeSettings)
    (n a v : String) (s : FState) (rpath c : String)
    (h1 : check_status env st n s = .ok none)
    (h2 : find_prompt_path env s (pathJoin st.versions_location n)
      (use_target a v) = some rpath)
    (h3 : s.files rpath = some c) :
    (use_command env st n a v s).printed = ["Using " ++ rpath] ∧
    (use_command env st n a v s).error = none := by
  simp [use_command, h1, h2, h3]

/-- Claim C9 (witness): the used-path theorem applied to the concrete
successful Use of revision `0001`. -/
theorem use_success_prints_used_path_witness :
    (use_command envA settingsA "foo" "0001" "" stClean).printed =
      ["Using " ++ "versions/foo/0001_foo.py"] ∧
    (use_command envA settingsA "foo" "0001" "" stClean).error = none :=
  use_success_prints_used_path envA settingsA "foo" "0001" "" stClean
    "versions/foo/0001_foo.py" "body" (by rfl) (by rfl) (by rfl)

/-- Claim C10: on every successful Use, the working-prompt overwrite and
formatter run strictly precede the pointer-file update — the final state is
the pointer update applied to the write-and-format stage, whose state
already holds the new rendered working-file content while this prompt's
pointer file is still unchanged, and the event order is read, write,
format, pointer update; the two writes are not atomic. -/
theorem use_write_precedes_pointer_update (env : Env)
    (st : MirascopeSettings) (n a v : String) (s : FState) (rpath c : String)
    (h1 : check_status env st n s = .ok none)
    (h2 : find_prompt_path env s (pathJoin st.versions_location n)
      (use_target a v) = some rpath)
    (h3 : s.files rpath = some c) :
    (use_command env st n a v s).state =
      update_version_text_file
        (pathJoin (pathJoin st.versions_location n) st.version_file_name)
        { current_revision := some (use_target a v) }
        (use_write_stage env (pathJoin st.prompts_location (n ++ ".py"))
          (env.write_prompt_to_template c MirascopeCommand.USE) s) ∧
    (use_write_stage env (pathJoin st.prompts_location (n ++ ".py"))
        (env.write_prompt_to_template c MirascopeCommand.USE) s).files
        (pathJoin st.prompts_location (n ++ ".py")) =
      some (env.format (env.write_prompt_to_template c
        MirascopeCommand.USE)) ∧
    (use_write_stage env (pathJoin st.prompts_location (n ++ ".py"))
        (env.write_prompt_to_template c MirascopeCommand.USE) s).pointers
        (pathJoin (pathJoin st.versions_location n) st.version_file_name) =
      s.pointers
        (pathJoin (pathJoin st.versions_location n) st.version_file_name) ∧
    (use_command env st n a v s).events =
      [.readSnapshot rpath,
       .writeWorking (pathJoin st.prompts_location (n ++ ".py"))
         (env.write_prompt_to_template c MirascopeCommand.USE),
       .formatRun (pathJoin st.prompts_location (n ++ ".py")),
       .writePointer (pathJoin (pathJoin st.versions_location n)
         st.version_file_name)] := by
  refine ⟨?_, ?_, ?_, ?_⟩
  · simp [use_command, h1, h2, h3]
  · exact uws_files_self env _ _ s (pathJoin_ne_empty _ _)
  · rw [uws_pointers]
  · simp [use_command, h1, h2, h3, pathJoin_ne_empty]

/-- Claim C10 (witness): the ordering theorem applied to the concrete
successful Use of revision `0001`. -/
theorem use_write_precedes_pointer_update_witness :
    (use_command envA settingsA "foo" "0001" "" stClean).state =
      update_version_text_file
        (pathJoin (pathJoin settingsA.versions_location "foo")
          settingsA.version_file_name)
        { current_revision := some (use_target "0001" "") }
        (use_write_stage envA
          (pathJoin settingsA.prompts_location ("foo" ++ ".py"))
          (envA.write_prompt_to_template "body" MirascopeCommand.USE)
          stClean) ∧
    (use_write_stage envA
        (pathJoin settingsA.prompts_location ("foo" ++ ".py"))
        (envA.write_prompt_to_template "body" MirascopeCommand.USE)
        stClean).files
        (pathJoin settingsA.prompts_location ("foo" ++ ".py")) =
      some (envA.format (envA.write_prompt_to_template "body"
        MirascopeCommand.USE)) ∧
    (use_write_stage envA
        (pathJoin settingsA.prompts_location ("foo" ++ ".py"))
        (envA.write_prompt_to_template "body" MirascopeCommand.USE)
        stClean).pointers
        (pathJoin (pathJoin settingsA.versions_location "foo")
          settingsA.version_file_name) =
      stClean.pointers
        (pathJoin (pathJoin settingsA.versions_location "foo")
          settingsA.version_file_name) ∧
    (use_command envA settingsA "foo" "0001" "" stClean).events =
      [.readSnapshot "versions/foo/0001_foo.py",
       .writeWorking (pathJoin settingsA.prompts_location ("foo" ++ ".py"))
         (envA.write_prompt_to_template "body" MirascopeCommand.USE),
       .formatRun (pathJoin settingsA.prompts_location ("foo" ++ ".py")),
       .writePointer (pathJoin (pathJoin settingsA.versions_location "foo")
         settingsA.version_file_name)] :=
  use_write_precedes_pointer_update envA settingsA "foo" "0001" "" stClean
    "versions/foo/0001_foo.py" "body" (by rfl) (by rfl) (by rfl)

end Mirascope
